import Mathlib

/-!
Verification development for the APEX protocol demo (demo/src/main.rs).

The Rust program composes programmable transaction blocks (inputs plus
ordered commands), submits them to an external simulation environment,
classifies the created objects of the execution result, and records a
JSON trace of every block.  The definitions below are a shallow
embedding of the data model and of the functions the claims are about.
External library values (BCS byte strings, Debug renderings of opaque
error values) enter the model as explicit data.
-/

/-- A 32-byte account address from move-core-types; modelled as its byte
list.  The Rust LowerHex rendering prints each byte as two lowercase hex
digits. -/
structure AccountAddress where
  bytes : List Nat
deriving DecidableEq, Repr, Inhabited

/-- A Move type tag as the classifier observes it: either a struct tag
carrying its name, or any other tag.  The display field is the Rust
Display rendering of the full tag. -/
inductive TypeTagR where
  | strct (name : String) (display : String)
  | other (display : String)
deriving DecidableEq, Repr, Inhabited

/-- Rust Display rendering of a type tag. -/
def TypeTagR.render : TypeTagR → String
  | .strct _ d => d
  | .other d => d

/-- An object held by the simulation environment store, as the demo
reads it back through env.get_object: version, BCS bytes, type tag,
the Debug rendering of its owner, and its shared flag. -/
structure StoredObject where
  version : Nat
  bcs_bytes : List Nat
  type_tag : TypeTagR
  owner_debug : String
  is_shared : Bool
deriving DecidableEq, Repr, Inhabited

/-- An opaque VM error value from the sandbox; only its Debug rendering
is observable to the demo. -/
structure VMError where
  debugRepr : String
deriving DecidableEq, Repr, Inhabited

/-- Effects of an execution: created ids, mutated ids, gas used. -/
structure Effects where
  created : List AccountAddress
  mutated : List AccountAddress
  gas_used : Nat
deriving DecidableEq, Repr, Inhabited

/-- The result returned by env.execute_ptb. -/
structure ExecutionResult where
  success : Bool
  effects : Option Effects
  error : Option VMError
deriving DecidableEq, Repr, Inhabited

/-- The object store of the simulation environment, as observed through
env.get_object. -/
def ObjectStore : Type := AccountAddress → Option StoredObject

/-- Object inputs of a transaction block (sui-sandbox ObjectInput). -/
inductive ObjectInput where
  | ImmRef (id : AccountAddress) (bytes : List Nat) (type_tag : Option TypeTagR)
      (version : Option Nat)
  | MutRef (id : AccountAddress) (bytes : List Nat) (type_tag : Option TypeTagR)
      (version : Option Nat)
  | Owned (id : AccountAddress) (bytes : List Nat) (type_tag : Option TypeTagR)
      (version : Option Nat)
  | Shared (id : AccountAddress) (bytes : List Nat) (type_tag : Option TypeTagR)
      (version : Option Nat) (mutable : Bool)
  | Receiving (id : AccountAddress) (bytes : List Nat) (type_tag : Option TypeTagR)
      (version : Option Nat)
deriving DecidableEq, Repr

/-- A block input (sui-sandbox InputValue): raw BCS bytes or an object. -/
inductive InputValue where
  | Pure (bytes : List Nat)
  | Object (obj : ObjectInput)
deriving DecidableEq, Repr

/-- A command argument (sui-sandbox Argument). -/
inductive Argument where
  | Input (i : Nat)
  | Result (c : Nat)
  | NestedResult (c : Nat) (o : Nat)
  | GasCoin
deriving DecidableEq, Repr

/-- A block command (sui-sandbox Command). -/
inductive Command where
  | MoveCall (package : AccountAddress) (module : String) (function : String)
      (type_args : List TypeTagR) (args : List Argument)
  | TransferObjects (objects : List Argument) (address : Argument)
  | SplitCoins (coin : Argument) (amounts : List Argument)
  | MergeCoins (destination : Argument) (sources : List Argument)
  | MakeMoveVec (type_tag : Option TypeTagR) (elements : List Argument)
  | Publish (modules : List (List Nat)) (dep_ids : List AccountAddress)
  | Upgrade (modules : List (List Nat)) (package : AccountAddress) (ticket : Argument)
  | Receive (object_id : AccountAddress) (object_type : Option TypeTagR)
deriving DecidableEq, Repr

-- ==========================================================================
-- Effect classification (the per-call-site heuristics over created lists)
-- ==========================================================================

/-- The predicate of the InvestorPosition search in join_fund:
env.get_object(id).map(matches InvestorPosition struct name).unwrap_or(false). -/
def isInvestorPosition (env : ObjectStore) (id : AccountAddress) : Bool :=
  ((env id).map (fun obj =>
    match obj.type_tag with
    | .strct n _ => n == "InvestorPosition"
    | _ => false)).getD false

/-- The shared-object predicate used by register_service, create_hedge_fund
and extract_protocol_objects: env.get_object(id).map(is_shared).unwrap_or(false). -/
def isSharedObject (env : ObjectStore) (id : AccountAddress) : Bool :=
  ((env id).map (fun obj => obj.is_shared)).getD false

/-- The owned-object predicate of the admin-cap search in
extract_protocol_objects: not (get_object(id).map(is_shared).unwrap_or(true)). -/
def isOwnedObject (env : ObjectStore) (id : AccountAddress) : Bool :=
  !(((env id).map (fun obj => obj.is_shared)).getD true)

/-- The classification expression of join_fund over the created list:
created.iter().find(type name is InvestorPosition).or(created.last()). -/
def join_fund_classify (env : ObjectStore) (created : List AccountAddress) :
    Option AccountAddress :=
  (created.find? (isInvestorPosition env)).or created.getLast?

/-- The classification expression of register_service over the created list:
created.iter().find(is_shared).or(created.first()). -/
def register_service_classify (env : ObjectStore) (created : List AccountAddress) :
    Option AccountAddress :=
  (created.find? (isSharedObject env)).or created.head?

/-- The classification expression of create_hedge_fund over the created list:
created.iter().find(is_shared).or(created.first()). -/
def create_hedge_fund_classify (env : ObjectStore) (created : List AccountAddress) :
    Option AccountAddress :=
  (created.find? (isSharedObject env)).or created.head?

/-- The classification expression of purchase_access (and of the other
first-created sites): created.first(). -/
def purchase_access_classify (created : List AccountAddress) :
    Option AccountAddress :=
  created.head?

/-- extract_protocol_objects from the source: guards success and effects,
requires at least two created objects, picks the shared one as config
(falling back to the first) and the first non-shared one as admin cap
(falling back to the last).  The unwraps behind the fallbacks are guarded
by the length check, so the defaults are never observable. -/
def extract_protocol_objects (result : ExecutionResult) (env : ObjectStore) :
    Except String (AccountAddress × AccountAddress) :=
  if !result.success then
    .error "Protocol init failed"
  else
    match result.effects with
    | none => .error "No effects"
    | some effects =>
      let created := effects.created
      if created.length < 2 then
        .error "Expected 2 objects"
      else
        let config := (created.find? (isSharedObject env)).getD (created.head?.getD default)
        let admin_cap := (created.find? (isOwnedObject env)).getD (created.getLast?.getD default)
        .ok (config, admin_cap)

-- ==========================================================================
-- Trace data model (the JSON output structures of the demo)
-- ==========================================================================

/-- The JSON document model: the persisted form produced by serde_json
for the trace structures.  The string layer (printing and reparsing the
document text) is serde_json library code outside this repository; the
document tree is the persisted format the schema describes. -/
inductive Json where
  | null
  | bool (b : Bool)
  | num (i : Int)
  | str (s : String)
  | arr (elems : List Json)
  | obj (fields : List (String × Json))

instance : Inhabited Json := ⟨Json.null⟩

/-- PtbInput from the source. -/
structure PtbInput where
  index : Nat
  input_type : String
  object_id : Option String
  type_tag : Option String
  value : Option String
deriving DecidableEq, Repr

/-- PtbCommand from the source. -/
structure PtbCommand where
  index : Nat
  command_type : String
  package : Option String
  module : Option String
  function : Option String
  type_args : List String
  args : List String
deriving DecidableEq, Repr

/-- CreatedObject from the source. -/
structure CreatedObject where
  object_id : String
  object_type : String
  owner : String
deriving DecidableEq, Repr

/-- PtbEvent from the source; data is an arbitrary serde_json value. -/
structure PtbEvent where
  event_type : String
  data : Json

/-- PtbOutputs from the source. -/
structure PtbOutputs where
  success : Bool
  gas_used : Nat
  created_objects : List CreatedObject
  mutated_objects : List String
  events : List PtbEvent
  error : Option String

/-- PtbTrace from the source. -/
structure PtbTrace where
  demo : String
  step : String
  sender : String
  inputs : List PtbInput
  commands : List PtbCommand
  outputs : PtbOutputs

/-- DemoTraces from the source. -/
structure DemoTraces where
  protocol : String
  version : String
  timestamp : String
  traces : List PtbTrace

-- ==========================================================================
-- Rendering helpers (hex module and the Display/Debug renderings used)
-- ==========================================================================

/-- Two lowercase hex digits of one byte, as the 02x format writes it. -/
def hexByte (b : Nat) : String :=
  String.mk [Nat.digitChar (b / 16 % 16), Nat.digitChar (b % 16)]

/-- hex::encode from the source: each byte as two lowercase hex digits. -/
def hexEncode (bytes : List Nat) : String :=
  String.join (bytes.map hexByte)

/-- The 0x-prefixed LowerHex rendering of an account address. -/
def addrHex (a : AccountAddress) : String :=
  "0x" ++ hexEncode a.bytes

/-- Debug rendering of a command argument. -/
def Argument.debugRepr : Argument → String
  | .Input i => "Input(" ++ toString i ++ ")"
  | .Result c => "Result(" ++ toString c ++ ")"
  | .NestedResult c o => "NestedResult(" ++ toString c ++ ", " ++ toString o ++ ")"
  | .GasCoin => "GasCoin"

/-- Debug rendering of a list of arguments. -/
def argListDebug (args : List Argument) : String :=
  "[" ++ String.intercalate ", " (args.map Argument.debugRepr) ++ "]"

-- ==========================================================================
-- format_input, format_command, create_trace from the source
-- ==========================================================================

/-- format_input from the source: renders one block input at a position. -/
def format_input (input : InputValue) (index : Nat) : PtbInput :=
  match input with
  | .Pure bytes =>
    { index := index
      input_type := "Pure"
      object_id := none
      type_tag := none
      value := some ("0x" ++ hexEncode bytes) }
  | .Object obj =>
    let triple : String × String × Option String :=
      match obj with
      | .ImmRef id _ type_tag _ => ("ImmRef", addrHex id, type_tag.map TypeTagR.render)
      | .MutRef id _ type_tag _ => ("MutRef", addrHex id, type_tag.map TypeTagR.render)
      | .Owned id _ type_tag _ => ("Owned", addrHex id, type_tag.map TypeTagR.render)
      | .Shared id _ type_tag _ m =>
        (if m then "SharedMut" else "SharedImm", addrHex id, type_tag.map TypeTagR.render)
      | .Receiving id _ type_tag _ => ("Receiving", addrHex id, type_tag.map TypeTagR.render)
    { index := index
      input_type := triple.1
      object_id := some triple.2.1
      type_tag := triple.2.2
      value := none }

/-- format_command from the source: renders one command at a position. -/
def format_command (cmd : Command) (index : Nat) : PtbCommand :=
  match cmd with
  | .MoveCall package module function type_args args =>
    { index := index
      command_type := "MoveCall"
      package := some (addrHex package)
      module := some module
      function := some function
      type_args := type_args.map TypeTagR.render
      args := args.map Argument.debugRepr }
  | .TransferObjects objects address =>
    { index := index
      command_type := "TransferObjects"
      package := none
      module := none
      function := none
      type_args := []
      args := ["objects: " ++ argListDebug objects,
               "to: " ++ address.debugRepr] }
  | .SplitCoins coin amounts =>
    { index := index
      command_type := "SplitCoins"
      package := none
      module := none
      function := none
      type_args := []
      args := ["coin: " ++ coin.debugRepr,
               "amounts: " ++ argListDebug amounts] }
  | .MergeCoins destination sources =>
    { index := index
      command_type := "MergeCoins"
      package := none
      module := none
      function := none
      type_args := []
      args := ["destination: " ++ destination.debugRepr,
               "sources: " ++ argListDebug sources] }
  | .MakeMoveVec type_tag elements =>
    { index := index
      command_type := "MakeMoveVec"
      package := none
      module := none
      function := none
      type_args := (type_tag.map (fun t => [t.render])).getD []
      args := ["elements: " ++ argListDebug elements] }
  | .Publish modules dep_ids =>
    { index := index
      command_type := "Publish"
      package := none
      module := none
      function := none
      type_args := []
      args := ["modules: " ++ toString modules.length ++ " modules",
               "deps: [" ++ String.intercalate ", " (dep_ids.map addrHex) ++ "]"] }
  | .Upgrade modules package ticket =>
    { index := index
      command_type := "Upgrade"
      package := some (addrHex package)
      module := none
      function := none
      type_args := []
      args := ["modules: " ++ toString modules.length ++ " modules",
               "ticket: " ++ ticket.debugRepr] }
  | .Receive object_id object_type =>
    { index := index
      command_type := "Receive"
      package := none
      module := none
      function := none
      type_args := (object_type.map (fun t => [t.render])).getD []
      args := ["object_id: " ++ addrHex object_id] }

/-- create_trace from the source: renders inputs and commands with their
positions and builds the outputs from the execution result, treating a
failed result as empty effects with gas zero and the rendered error. -/
def create_trace (demo step : String) (sender : AccountAddress)
    (inputs : List InputValue) (commands : List Command)
    (result : ExecutionResult) (env : ObjectStore) : PtbTrace :=
  let formatted_inputs := inputs.enum.map (fun p => format_input p.2 p.1)
  let formatted_commands := commands.enum.map (fun p => format_command p.2 p.1)
  let outputs : PtbOutputs :=
    if result.success then
      let created_objects :=
        ((result.effects.map (fun e =>
          e.created.map (fun id =>
            let obj := env id
            { object_id := addrHex id
              object_type := (obj.map (fun o => o.type_tag.render)).getD "unknown"
              owner := (obj.map (fun o => o.owner_debug)).getD "unknown"
              : CreatedObject }))).getD [])
      let mutated_objects :=
        ((result.effects.map (fun e => e.mutated.map addrHex)).getD [])
      let gas_used := ((result.effects.map (fun e => e.gas_used)).getD 0)
      { success := true
        gas_used := gas_used
        created_objects := created_objects
        mutated_objects := mutated_objects
        events := []
        error := none }
    else
      { success := false
        gas_used := 0
        created_objects := []
        mutated_objects := []
        events := []
        error := result.error.map VMError.debugRepr }
  { demo := demo
    step := step
    sender := addrHex sender
    inputs := formatted_inputs
    commands := formatted_commands
    outputs := outputs }

-- ==========================================================================
-- Trace recorder and persistence (record_trace, save_to_file, save_traces)
-- ==========================================================================

/-- DemoTraces.new from the source (the timestamp is a clock read passed
in explicitly). -/
def DemoTraces.new (timestamp : String) : DemoTraces :=
  { protocol := "APEX Protocol"
    version := "0.1.0"
    timestamp := timestamp
    traces := [] }

/-- DemoTraces.add_trace from the source: push one entry at the end. -/
def DemoTraces.add_trace (t : DemoTraces) (trace : PtbTrace) : DemoTraces :=
  { t with traces := t.traces ++ [trace] }

/-- record_trace from the source, in state-passing form.  The global
mutex is modelled by the lockOk flag: the Rust lock call fails only when
the mutex is poisoned by a panicking thread, and on failure the body is
skipped.  The demo process is single threaded, so in every actual call
lockOk is true. -/
def record_trace (st : DemoTraces) (lockOk : Bool) (trace : PtbTrace) : DemoTraces :=
  if lockOk then st.add_trace trace else st

-- ==========================================================================
-- JSON serialization model (serde derive over the trace structures)
-- ==========================================================================

/-- serde encoding of an optional string: null for None. -/
def encodeOptString : Option String → Json
  | none => .null
  | some s => .str s

/-- serde encoding of a PtbInput (field order and names as declared). -/
def encodePtbInput (x : PtbInput) : Json :=
  .obj [("index", .num (Int.ofNat x.index)),
        ("input_type", .str x.input_type),
        ("object_id", encodeOptString x.object_id),
        ("type_tag", encodeOptString x.type_tag),
        ("value", encodeOptString x.value)]

/-- serde encoding of a PtbCommand. -/
def encodePtbCommand (x : PtbCommand) : Json :=
  .obj [("index", .num (Int.ofNat x.index)),
        ("command_type", .str x.command_type),
        ("package", encodeOptString x.package),
        ("module", encodeOptString x.module),
        ("function", encodeOptString x.function),
        ("type_args", .arr (x.type_args.map Json.str)),
        ("args", .arr (x.args.map Json.str))]

/-- serde encoding of a CreatedObject. -/
def encodeCreatedObject (x : CreatedObject) : Json :=
  .obj [("object_id", .str x.object_id),
        ("object_type", .str x.object_type),
        ("owner", .str x.owner)]

/-- serde encoding of a PtbEvent; the data field is already a JSON value
and serializes as itself. -/
def encodePtbEvent (x : PtbEvent) : Json :=
  .obj [("event_type", .str x.event_type),
        ("data", x.data)]

/-- serde encoding of a PtbOutputs. -/
def encodePtbOutputs (x : PtbOutputs) : Json :=
  .obj [("success", .bool x.success),
        ("gas_used", .num (Int.ofNat x.gas_used)),
        ("created_objects", .arr (x.created_objects.map encodeCreatedObject)),
        ("mutated_objects", .arr (x.mutated_objects.map Json.str)),
        ("events", .arr (x.events.map encodePtbEvent)),
        ("error", encodeOptString x.error)]

/-- serde encoding of a PtbTrace. -/
def encodePtbTrace (x : PtbTrace) : Json :=
  .obj [("demo", .str x.demo),
        ("step", .str x.step),
        ("sender", .str x.sender),
        ("inputs", .arr (x.inputs.map encodePtbInput)),
        ("commands", .arr (x.commands.map encodePtbCommand)),
        ("outputs", encodePtbOutputs x.outputs)]

/-- serde encoding of the whole DemoTraces document, the JSON document
save_to_file writes. -/
def DemoTraces.to_json (x : DemoTraces) : Json :=
  .obj [("protocol", .str x.protocol),
        ("version", .str x.version),
        ("timestamp", .str x.timestamp),
        ("traces", .arr (x.traces.map encodePtbTrace))]

/-- DemoTraces.save_to_file from the source: serialize the document and
hand it to the filesystem write; the write result propagates through the
question-mark operator. -/
def DemoTraces.save_to_file (t : DemoTraces) (path : String)
    (write : String → Json → Except String Unit) : Except String Unit :=
  write path t.to_json

/-- save_traces from the source: under the lock (if acquired), write the
accumulated log to ptb_traces.json; the write error propagates through
the question-mark operator to the caller.  A failed lock skips the body
and returns Ok. -/
def save_traces (lockResult : Option DemoTraces)
    (write : String → Json → Except String Unit) : Except String Unit :=
  match lockResult with
  | some traces => traces.save_to_file "ptb_traces.json" write
  | none => .ok ()

/-- The tail of main from the source: main calls save_traces with the
question-mark operator, so a save error becomes the return value of main. -/
def main_save_step (lockResult : Option DemoTraces)
    (write : String → Json → Except String Unit) : Except String Unit :=
  match save_traces lockResult write with
  | .ok _ => .ok ()
  | .error e => .error e

-- ==========================================================================
-- JSON parsing model (serde derive deserialization of the same schema)
-- ==========================================================================

/-- Field lookup in a JSON object, as the derived visitor reads keys. -/
def Json.getField (j : Json) (key : String) : Option Json :=
  match j with
  | .obj fields => fields.lookup key
  | _ => none

/-- Parse a u64 or usize field: an integer JSON number that is not
negative. -/
def decodeNat : Json → Option Nat
  | .num i => if 0 ≤ i then some i.toNat else none
  | _ => none

/-- Parse a string field. -/
def decodeString : Json → Option String
  | .str s => some s
  | _ => none

/-- Parse a bool field. -/
def decodeBool : Json → Option Bool
  | .bool b => some b
  | _ => none

/-- Parse an optional string field: null maps to None. -/
def decodeOptString : Json → Option (Option String)
  | .null => some none
  | .str s => some (some s)
  | _ => none

/-- Parse the elements of a JSON sequence, failing on the first bad one,
as serde seq deserialization does. -/
def decodeElems (dec : Json → Option α) : List Json → Option (List α)
  | [] => some []
  | j :: js =>
    match dec j, decodeElems dec js with
    | some x, some xs => some (x :: xs)
    | _, _ => none

/-- Parse a JSON array field. -/
def decodeList (dec : Json → Option α) : Json → Option (List α)
  | .arr elems => decodeElems dec elems
  | _ => none

/-- Parse a PtbInput. -/
def decodePtbInput (j : Json) : Option PtbInput :=
  match j.getField "index", j.getField "input_type", j.getField "object_id",
      j.getField "type_tag", j.getField "value" with
  | some ji, some jt, some jo, some jtt, some jv =>
    match decodeNat ji, decodeString jt, decodeOptString jo,
        decodeOptString jtt, decodeOptString jv with
    | some i, some t, some o, some tt, some v =>
      some { index := i, input_type := t, object_id := o, type_tag := tt, value := v }
    | _, _, _, _, _ => none
  | _, _, _, _, _ => none

/-- Parse a PtbCommand. -/
def decodePtbCommand (j : Json) : Option PtbCommand :=
  match j.getField "index", j.getField "command_type", j.getField "package",
      j.getField "module", j.getField "function", j.getField "type_args",
      j.getField "args" with
  | some ji, some jc, some jp, some jm, some jf, some jta, some ja =>
    match decodeNat ji, decodeString jc, decodeOptString jp, decodeOptString jm,
        decodeOptString jf, decodeList decodeString jta, decodeList decodeString ja with
    | some i, some c, some p, some m, some f, some ta, some a =>
      some { index := i, command_type := c, package := p, module := m,
             function := f, type_args := ta, args := a }
    | _, _, _, _, _, _, _ => none
  | _, _, _, _, _, _, _ => none

/-- Parse a CreatedObject. -/
def decodeCreatedObject (j : Json) : Option CreatedObject :=
  match j.getField "object_id", j.getField "object_type", j.getField "owner" with
  | some jid, some jt, some jo =>
    match decodeString jid, decodeString jt, decodeString jo with
    | some i, some t, some o => some { object_id := i, object_type := t, owner := o }
    | _, _, _ => none
  | _, _, _ => none

/-- Parse a PtbEvent; the data field deserializes as the raw JSON value. -/
def decodePtbEvent (j : Json) : Option PtbEvent :=
  match j.getField "event_type", j.getField "data" with
  | some jt, some jd =>
    match decodeString jt with
    | some t => some { event_type := t, data := jd }
    | none => none
  | _, _ => none

/-- Parse a PtbOutputs. -/
def decodePtbOutputs (j : Json) : Option PtbOutputs :=
  match j.getField "success", j.getField "gas_used", j.getField "created_objects",
      j.getField "mutated_objects", j.getField "events", j.getField "error" with
  | some js, some jg, some jc, some jm, some je, some jerr =>
    match decodeBool js, decodeNat jg, decodeList decodeCreatedObject jc,
        decodeList decodeString jm, decodeList decodePtbEvent je,
        decodeOptString jerr with
    | some s, some g, some c, some m, some e, some err =>
      some { success := s, gas_used := g, created_objects := c,
             mutated_objects := m, events := e, error := err }
    | _, _, _, _, _, _ => none
  | _, _, _, _, _, _ => none

/-- Parse a PtbTrace. -/
def decodePtbTrace (j : Json) : Option PtbTrace :=
  match j.getField "demo", j.getField "step", j.getField "sender",
      j.getField "inputs", j.getField "commands", j.getField "outputs" with
  | some jd, some jst, some jse, some ji, some jc, some jo =>
    match decodeString jd, decodeString jst, decodeString jse,
        decodeList decodePtbInput ji, decodeList decodePtbCommand jc,
        decodePtbOutputs jo with
    | some d, some st, some se, some i, some c, some o =>
      some { demo := d, step := st, sender := se, inputs := i,
             commands := c, outputs := o }
    | _, _, _, _, _, _ => none
  | _, _, _, _, _, _ => none

/-- Parse the whole trace file document back into DemoTraces. -/
def parseDemoTraces (j : Json) : Option DemoTraces :=
  match j.getField "protocol", j.getField "version", j.getField "timestamp",
      j.getField "traces" with
  | some jp, some jv, some jt, some jtr =>
    match decodeString jp, decodeString jv, decodeString jt,
        decodeList decodePtbTrace jtr with
    | some p, some v, some t, some tr =>
      some { protocol := p, version := v, timestamp := t, traces := tr }
    | _, _, _, _ => none
  | _, _, _, _ => none

-- ==========================================================================
-- Transaction blocks constructed by the demo, site by site.
-- Pure inputs carry BCS byte strings computed by the external bcs crate;
-- those byte strings enter each definition as parameters.
-- ==========================================================================

/-- Inputs of the create_hedge_fund block. -/
def create_hedge_fund_inputs (config_id service_id init_coin_id clock_id : AccountAddress)
    (config_obj service_obj coin_obj clock_obj : StoredObject) (coin_type : TypeTagR)
    (name_bytes entry_fee_bytes management_fee_bytes performance_fee_bytes
      max_capacity_bytes : List Nat) : List InputValue :=
  [.Object (.Shared config_id config_obj.bcs_bytes none (some config_obj.version) false),
   .Object (.Shared service_id service_obj.bcs_bytes none (some service_obj.version) true),
   .Pure name_bytes,
   .Pure entry_fee_bytes,
   .Pure management_fee_bytes,
   .Pure performance_fee_bytes,
   .Pure max_capacity_bytes,
   .Object (.Owned init_coin_id coin_obj.bcs_bytes (some coin_type) none),
   .Object (.Shared clock_id clock_obj.bcs_bytes none (some clock_obj.version) false)]

/-- Commands of the create_hedge_fund block. -/
def create_hedge_fund_commands (apex_pkg : AccountAddress) : List Command :=
  [.MoveCall apex_pkg "apex_fund" "create_fund" []
    [.Input 0, .Input 1, .Input 2, .Input 3, .Input 4, .Input 5, .Input 6, .Input 7,
     .Input 8]]

/-- Inputs of the join_fund block. -/
def join_fund_inputs (fund_id config_id service_id entry_fee_coin_id deposit_coin_id
      clock_id : AccountAddress)
    (fund_obj config_obj service_obj entry_coin_obj deposit_coin_obj clock_obj : StoredObject)
    (coin_type : TypeTagR) (sender_bytes : List Nat) : List InputValue :=
  [.Object (.Shared fund_id fund_obj.bcs_bytes none (some fund_obj.version) true),
   .Object (.Shared config_id config_obj.bcs_bytes none (some config_obj.version) true),
   .Object (.Shared service_id service_obj.bcs_bytes none (some service_obj.version) true),
   .Object (.Owned entry_fee_coin_id entry_coin_obj.bcs_bytes (some coin_type) none),
   .Object (.Owned deposit_coin_id deposit_coin_obj.bcs_bytes (some coin_type) none),
   .Object (.Shared clock_id clock_obj.bcs_bytes none (some clock_obj.version) false),
   .Pure sender_bytes]

/-- Commands of the join_fund block. -/
def join_fund_commands (apex_pkg : AccountAddress) : List Command :=
  [.MoveCall apex_pkg "apex_fund" "join_fund" []
    [.Input 0, .Input 1, .Input 2, .Input 3, .Input 4, .Input 5],
   .TransferObjects [.NestedResult 0 0] (.Input 6)]

/-- Inputs of the start_fund_trading block. -/
def start_fund_trading_inputs (fund_id clock_id : AccountAddress)
    (fund_obj clock_obj : StoredObject) : List InputValue :=
  [.Object (.Shared fund_id fund_obj.bcs_bytes none (some fund_obj.version) true),
   .Object (.Shared clock_id clock_obj.bcs_bytes none (some clock_obj.version) false)]

/-- Commands of the start_fund_trading block. -/
def start_fund_trading_commands (apex_pkg : AccountAddress) : List Command :=
  [.MoveCall apex_pkg "apex_fund" "start_trading" [] [.Input 0, .Input 1]]

/-- Inputs of the execute_fund_trade block. -/
def execute_fund_trade_inputs (fund_id clock_id : AccountAddress)
    (fund_obj clock_obj : StoredObject)
    (trade_type_bytes input_amount_bytes simulated_output_bytes sender_bytes : List Nat) :
    List InputValue :=
  [.Object (.Shared fund_id fund_obj.bcs_bytes none (some fund_obj.version) true),
   .Pure trade_type_bytes,
   .Pure input_amount_bytes,
   .Pure simulated_output_bytes,
   .Object (.Shared clock_id clock_obj.bcs_bytes none (some clock_obj.version) false),
   .Pure sender_bytes]

/-- Commands of the execute_fund_trade block. -/
def execute_fund_trade_commands (apex_pkg : AccountAddress) : List Command :=
  [.MoveCall apex_pkg "apex_fund" "execute_margin_trade" []
    [.Input 0, .Input 1, .Input 2, .Input 3, .Input 4],
   .TransferObjects [.NestedResult 0 0] (.Input 5)]

/-- Inputs of the add_trade_profit block. -/
def add_trade_profit_inputs (fund_id profit_coin_id : AccountAddress)
    (fund_obj coin_obj : StoredObject) (coin_type : TypeTagR) : List InputValue :=
  [.Object (.Shared fund_id fund_obj.bcs_bytes none (some fund_obj.version) true),
   .Object (.Owned profit_coin_id coin_obj.bcs_bytes (some coin_type) none)]

/-- Commands of the add_trade_profit block. -/
def add_trade_profit_commands (apex_pkg : AccountAddress) : List Command :=
  [.MoveCall apex_pkg "apex_fund" "record_trade_profit" [] [.Input 0, .Input 1]]

/-- Inputs of the settle_fund block. -/
def settle_fund_inputs (fund_id clock_id : AccountAddress)
    (fund_obj clock_obj : StoredObject) : List InputValue :=
  [.Object (.Shared fund_id fund_obj.bcs_bytes none (some fund_obj.version) true),
   .Object (.Shared clock_id clock_obj.bcs_bytes none (some clock_obj.version) false)]

/-- Commands of the settle_fund block. -/
def settle_fund_commands (apex_pkg : AccountAddress) : List Command :=
  [.MoveCall apex_pkg "apex_fund" "settle_fund" [] [.Input 0, .Input 1]]

/-- Inputs of the withdraw_investor_shares block. -/
def withdraw_investor_shares_inputs (fund_id position_id clock_id : AccountAddress)
    (fund_obj position_obj clock_obj : StoredObject) (sender_bytes : List Nat) :
    List InputValue :=
  [.Object (.Shared fund_id fund_obj.bcs_bytes none (some fund_obj.version) true),
   .Object (.Owned position_id position_obj.bcs_bytes (some position_obj.type_tag)
      (some position_obj.version)),
   .Object (.Shared clock_id clock_obj.bcs_bytes none (some clock_obj.version) false),
   .Pure sender_bytes]

/-- Commands of the withdraw_investor_shares block. -/
def withdraw_investor_shares_commands (apex_pkg : AccountAddress) : List Command :=
  [.MoveCall apex_pkg "apex_fund" "withdraw_shares" [] [.Input 0, .Input 1, .Input 2],
   .TransferObjects [.NestedResult 0 0] (.Input 3)]

/-- Inputs of the withdraw_manager_fees block. -/
def withdraw_manager_fees_inputs (fund_id : AccountAddress) (fund_obj : StoredObject)
    (sender_bytes : List Nat) : List InputValue :=
  [.Object (.Shared fund_id fund_obj.bcs_bytes none (some fund_obj.version) true),
   .Pure sender_bytes]

/-- Commands of the withdraw_manager_fees block. -/
def withdraw_manager_fees_commands (apex_pkg : AccountAddress) : List Command :=
  [.MoveCall apex_pkg "apex_fund" "withdraw_manager_fees" [] [.Input 0],
   .TransferObjects [.NestedResult 0 0] (.Input 1)]

/-- Inputs of the register_service block. -/
def register_service_inputs (config_id payment_coin_id : AccountAddress)
    (config_obj coin_obj : StoredObject) (coin_type : TypeTagR)
    (name_bytes description_bytes price_bytes : List Nat) : List InputValue :=
  [.Object (.Shared config_id config_obj.bcs_bytes none (some config_obj.version) true),
   .Pure name_bytes,
   .Pure description_bytes,
   .Pure price_bytes,
   .Object (.Owned payment_coin_id coin_obj.bcs_bytes (some coin_type) none)]

/-- Commands of the register_service block. -/
def register_service_commands (apex_pkg : AccountAddress) : List Command :=
  [.MoveCall apex_pkg "apex_payments" "register_service" []
    [.Input 0, .Input 1, .Input 2, .Input 3, .Input 4]]

/-- Inputs of the purchase_access block. -/
def purchase_access_inputs (config_id service_id payment_coin_id clock_id : AccountAddress)
    (config_obj service_obj coin_obj clock_obj : StoredObject) (coin_type : TypeTagR)
    (units_bytes duration_bytes rate_limit_bytes sender_bytes : List Nat) : List InputValue :=
  [.Object (.Shared config_id config_obj.bcs_bytes none (some config_obj.version) true),
   .Object (.Shared service_id service_obj.bcs_bytes none (some service_obj.version) true),
   .Object (.Owned payment_coin_id coin_obj.bcs_bytes (some coin_type) none),
   .Pure units_bytes,
   .Pure duration_bytes,
   .Pure rate_limit_bytes,
   .Object (.Shared clock_id clock_obj.bcs_bytes none (some clock_obj.version) false),
   .Pure sender_bytes]

/-- Commands of the purchase_access block. -/
def purchase_access_commands (apex_pkg : AccountAddress) : List Command :=
  [.MoveCall apex_pkg "apex_payments" "purchase_access" []
    [.Input 0, .Input 1, .Input 2, .Input 3, .Input 4, .Input 5, .Input 6],
   .TransferObjects [.NestedResult 0 0] (.Input 7)]

/-- Inputs of the use_access block. -/
def use_access_inputs (cap_id service_id clock_id : AccountAddress)
    (cap_obj service_obj clock_obj : StoredObject) (units_bytes : List Nat) :
    List InputValue :=
  [.Object (.MutRef cap_id cap_obj.bcs_bytes none (some cap_obj.version)),
   .Object (.Shared service_id service_obj.bcs_bytes none (some service_obj.version) false),
   .Pure units_bytes,
   .Object (.Shared clock_id clock_obj.bcs_bytes none (some clock_obj.version) false)]

/-- Commands of the use_access block. -/
def use_access_commands (apex_pkg : AccountAddress) : List Command :=
  [.MoveCall apex_pkg "apex_payments" "use_access" []
    [.Input 0, .Input 1, .Input 2, .Input 3]]

/-- Inputs of the create_authorization block. -/
def create_authorization_inputs (clock_id : AccountAddress) (clock_obj : StoredObject)
    (agent_bytes allowed_services_bytes spend_limit_bytes daily_limit_bytes
      duration_bytes sender_bytes : List Nat) : List InputValue :=
  [.Pure agent_bytes,
   .Pure allowed_services_bytes,
   .Pure spend_limit_bytes,
   .Pure daily_limit_bytes,
   .Pure duration_bytes,
   .Object (.Shared clock_id clock_obj.bcs_bytes none (some clock_obj.version) false),
   .Pure sender_bytes]

/-- Commands of the create_authorization block. -/
def create_authorization_commands (apex_pkg : AccountAddress) : List Command :=
  [.MoveCall apex_pkg "apex_payments" "create_authorization" []
    [.Input 0, .Input 1, .Input 2, .Input 3, .Input 4, .Input 5],
   .TransferObjects [.NestedResult 0 0] (.Input 6)]

/-- Inputs of the authorized_purchase block. -/
def authorized_purchase_inputs (auth_id config_id service_id payment_coin_id
      clock_id : AccountAddress)
    (auth_obj config_obj service_obj coin_obj clock_obj : StoredObject)
    (coin_type : TypeTagR)
    (units_bytes duration_bytes rate_limit_bytes sender_bytes : List Nat) :
    List InputValue :=
  [.Object (.MutRef auth_id auth_obj.bcs_bytes none (some auth_obj.version)),
   .Object (.Shared config_id config_obj.bcs_bytes none (some config_obj.version) true),
   .Object (.Shared service_id service_obj.bcs_bytes none (some service_obj.version) true),
   .Object (.Owned payment_coin_id coin_obj.bcs_bytes (some coin_type) none),
   .Pure units_bytes,
   .Pure duration_bytes,
   .Pure rate_limit_bytes,
   .Object (.Shared clock_id clock_obj.bcs_bytes none (some clock_obj.version) false),
   .Pure sender_bytes]

/-- Commands of the authorized_purchase block. -/
def authorized_purchase_commands (apex_pkg : AccountAddress) : List Command :=
  [.MoveCall apex_pkg "apex_payments" "authorized_purchase" []
    [.Input 0, .Input 1, .Input 2, .Input 3, .Input 4, .Input 5, .Input 6, .Input 7],
   .TransferObjects [.NestedResult 0 0] (.Input 8)]

/-- Inputs of the create_registry block. -/
def create_registry_inputs (admin_cap_id : AccountAddress) (admin_cap_obj : StoredObject) :
    List InputValue :=
  [.Object (.Owned admin_cap_id admin_cap_obj.bcs_bytes none none)]

/-- Commands of the create_registry block. -/
def create_registry_commands (apex_pkg : AccountAddress) : List Command :=
  [.MoveCall apex_pkg "apex_payments" "create_registry" [] [.Input 0]]

/-- Inputs of the list_service block. -/
def list_service_inputs (registry_id service_id clock_id : AccountAddress)
    (registry_obj service_obj clock_obj : StoredObject)
    (category_bytes blob_bytes : List Nat) : List InputValue :=
  [.Object (.Shared registry_id registry_obj.bcs_bytes none (some registry_obj.version) true),
   .Object (.Shared service_id service_obj.bcs_bytes none (some service_obj.version) false),
   .Pure category_bytes,
   .Pure blob_bytes,
   .Object (.Shared clock_id clock_obj.bcs_bytes none (some clock_obj.version) false)]

/-- Commands of the list_service block. -/
def list_service_commands (apex_pkg : AccountAddress) : List Command :=
  [.MoveCall apex_pkg "apex_payments" "list_service" []
    [.Input 0, .Input 1, .Input 2, .Input 3, .Input 4]]

/-- Inputs of the set_featured block. -/
def set_featured_inputs (registry_id : AccountAddress) (registry_obj : StoredObject)
    (service_id_bytes featured_bytes : List Nat) : List InputValue :=
  [.Object (.Shared registry_id registry_obj.bcs_bytes none (some registry_obj.version) true),
   .Pure service_id_bytes,
   .Pure featured_bytes]

/-- Commands of the set_featured block. -/
def set_featured_commands (apex_pkg : AccountAddress) : List Command :=
  [.MoveCall apex_pkg "apex_payments" "set_featured" [] [.Input 0, .Input 1, .Input 2]]

/-- Inputs of the register_meter block. -/
def register_meter_inputs (admin_cap_id : AccountAddress) (admin_cap_obj : StoredObject)
    (enclave_pubkey_bytes pcr_bytes name_bytes sender_bytes : List Nat) : List InputValue :=
  [.Object (.Owned admin_cap_id admin_cap_obj.bcs_bytes none none),
   .Pure enclave_pubkey_bytes,
   .Pure pcr_bytes,
   .Pure name_bytes,
   .Pure sender_bytes]

/-- Commands of the register_meter block. -/
def register_meter_commands (apex_pkg : AccountAddress) : List Command :=
  [.MoveCall apex_pkg "apex_payments" "register_meter" []
    [.Input 0, .Input 1, .Input 2, .Input 3],
   .TransferObjects [.NestedResult 0 0] (.Input 4)]

/-- The inline initialize_protocol block (built four times in the demos):
no inputs, one MoveCall with no arguments. -/
def initialize_protocol_commands (apex_pkg : AccountAddress) : List Command :=
  [.MoveCall apex_pkg "apex_payments" "initialize_protocol" [] []]

/-- The inline initialize_seal block: no inputs, one MoveCall with no
arguments. -/
def initialize_seal_commands (apex_pkg : AccountAddress) : List Command :=
  [.MoveCall apex_pkg "apex_seal" "initialize_seal" [] []]

-- ==========================================================================
-- Block-level predicates for the invariants
-- ==========================================================================

/-- The command index a result-style argument references, if any. -/
def Argument.resultTarget : Argument → Option (Nat × Nat)
  | .Result c => some (c, 0)
  | .NestedResult c o => some (c, o)
  | _ => none

/-- All arguments a command carries, in order. -/
def Command.arguments : Command → List Argument
  | .MoveCall _ _ _ _ args => args
  | .TransferObjects objects address => objects ++ [address]
  | .SplitCoins coin amounts => coin :: amounts
  | .MergeCoins destination sources => destination :: sources
  | .MakeMoveVec _ elements => elements
  | .Publish _ _ => []
  | .Upgrade _ _ ticket => [ticket]
  | .Receive _ _ => []

/-- Every result-style argument of the command at position k references
a command at a strictly smaller position. -/
def commandRefsEarlier (k : Nat) (c : Command) : Bool :=
  c.arguments.all (fun a =>
    match a.resultTarget with
    | some t => decide (t.1 < k)
    | none => true)

/-- The DAG condition on a command list: submission order is a
topological order. -/
def blockDagOk (cmds : List Command) : Bool :=
  cmds.enum.all (fun p => commandRefsEarlier p.1 p.2)

/-- Every result-style argument in the block is NestedResult(0, 0) and
sits in the command at position 1. -/
def blockNestedOnlyAtOne (cmds : List Command) : Bool :=
  cmds.enum.all (fun p =>
    p.2.arguments.all (fun a =>
      match a.resultTarget with
      | some t => decide (p.1 = 1) && decide (t.1 = 0) && decide (t.2 = 0)
      | none => true))

/-- A block input carries an explicit version whenever it is a Shared or
MutRef object access. -/
def inputVersionOk (input : InputValue) : Bool :=
  match input with
  | .Object (.Shared _ _ _ version _) => version.isSome
  | .Object (.MutRef _ _ _ version) => version.isSome
  | _ => true

-- ==========================================================================
-- Concrete fixtures used by counterexamples and witnesses
-- ==========================================================================

/-- A concrete address for tests. -/
def addr1 : AccountAddress := ⟨[1]⟩

/-- A second concrete address. -/
def addr2 : AccountAddress := ⟨[2]⟩

/-- A third concrete address. -/
def addr3 : AccountAddress := ⟨[3]⟩

/-- A fourth concrete address, absent from the fixture store. -/
def addr4 : AccountAddress := ⟨[4]⟩

/-- A fifth concrete address, absent from the fixture store. -/
def addr5 : AccountAddress := ⟨[5]⟩

/-- A concrete owned capability object. -/
def capabilityObject : StoredObject :=
  { version := 1
    bcs_bytes := []
    type_tag := .strct "AccessCapability" "0xa::apex_payments::AccessCapability"
    owner_debug := "AddressOwner"
    is_shared := false }

/-- A concrete owned trade-record object. -/
def tradeRecordObject : StoredObject :=
  { version := 1
    bcs_bytes := []
    type_tag := .strct "TradeRecord" "0xa::apex_fund::TradeRecord"
    owner_debug := "AddressOwner"
    is_shared := false }

/-- A concrete owned investor-position object. -/
def investorPositionObject : StoredObject :=
  { version := 1
    bcs_bytes := []
    type_tag := .strct "InvestorPosition" "0xa::apex_fund::InvestorPosition"
    owner_debug := "AddressOwner"
    is_shared := false }

/-- A concrete object store holding the three fixture objects. -/
def demoStore : ObjectStore := fun a =>
  if a = addr1 then some capabilityObject
  else if a = addr2 then some tradeRecordObject
  else if a = addr3 then some investorPositionObject
  else none

/-- A concrete failed execution result. -/
def failedResult : ExecutionResult :=
  { success := false
    effects := none
    error := some ⟨"MoveAbort in apex_payments at code 4"⟩ }

/-- A concrete trace entry. -/
def sampleTrace : PtbTrace :=
  { demo := "Demo 1: Basic Flow"
    step := "register_service"
    sender := "0x01"
    inputs := []
    commands := []
    outputs :=
      { success := true
        gas_used := 3
        created_objects := []
        mutated_objects := []
        events := []
        error := none } }

/-- A filesystem write that always fails. -/
def diskFullWrite : String → Json → Except String Unit := fun _ _ => .error "disk full"

/-- All command lists of the blocks the demo submits through execute_ptb. -/
def demo_blocks (apex_pkg : AccountAddress) : List (List Command) :=
  [create_hedge_fund_commands apex_pkg,
   join_fund_commands apex_pkg,
   start_fund_trading_commands apex_pkg,
   execute_fund_trade_commands apex_pkg,
   add_trade_profit_commands apex_pkg,
   settle_fund_commands apex_pkg,
   withdraw_investor_shares_commands apex_pkg,
   withdraw_manager_fees_commands apex_pkg,
   register_service_commands apex_pkg,
   purchase_access_commands apex_pkg,
   use_access_commands apex_pkg,
   create_authorization_commands apex_pkg,
   authorized_purchase_commands apex_pkg,
   create_registry_commands apex_pkg,
   list_service_commands apex_pkg,
   set_featured_commands apex_pkg,
   register_meter_commands apex_pkg,
   initialize_protocol_commands apex_pkg,
   initialize_seal_commands apex_pkg]

-- ==========================================================================
-- Shared helper lemmas
-- ==========================================================================

/-- A find? over a list whose prefix fails the predicate and whose head of
the remainder satisfies it returns exactly that element. -/
theorem find?_first_match {α} (p : α → Bool) (pre post : List α) (x : α)
    (hx : p x = true) (hpre : ∀ y ∈ pre, p y = false) :
    (pre ++ x :: post).find? p = some x := by
  have h1 : pre.find? p = none :=
    List.find?_eq_none.mpr (fun y hy => by simp [hpre y hy])
  rw [List.find?_append, h1, List.find?_cons_of_pos _ hx]
  rfl

-- ==========================================================================
-- Claim theorems
-- ==========================================================================

/-- Claim C1, counterexample: the first-element fallback claim is false
at two of the cited sites.  In join_fund, with a created list of two
objects neither of which is an InvestorPosition, the extraction returns
the LAST element, not the first.  In extract_protocol_objects, with two
created objects neither of which the owned-object search matches, the
admin-cap component is the LAST element, not the first. -/
theorem c1_counterexample :
    isInvestorPosition demoStore addr1 = false ∧
    isInvestorPosition demoStore addr2 = false ∧
    join_fund_classify demoStore [addr1, addr2] = some addr2 ∧
    isOwnedObject demoStore addr4 = false ∧
    isOwnedObject demoStore addr5 = false ∧
    extract_protocol_objects
      { success := true
        effects := some { created := [addr4, addr5], mutated := [], gas_used := 0 }
        error := none } demoStore = .ok (addr4, addr5) ∧
    [addr1, addr2].head? = some addr1 ∧
    [addr4, addr5].head? = some addr4 ∧
    addr2 ≠ addr1 ∧
    addr5 ≠ addr4 :=
  ⟨by decide, by decide, by decide, by decide, by decide, rfl, rfl, rfl,
   by decide, by decide⟩

/-- Claim C1, amended: the fallback is per site and per search.  When
its search finds no matching object in a non-empty created list,
register_service and create_hedge_fund fall back to the FIRST created
element, join_fund falls back to the LAST created element, and
extract_protocol_objects falls back to the FIRST element for its
shared-config search and to the LAST element for its owned-admin-cap
search. -/
theorem c1_fallbacks (env : ObjectStore) (created mutated : List AccountAddress)
    (g : Nat) (err : Option VMError)
    (h1 : ∀ id ∈ created, isInvestorPosition env id = false)
    (h2 : ∀ id ∈ created, isSharedObject env id = false)
    (h3 : ∀ id ∈ created, isOwnedObject env id = false)
    (hlen : 2 ≤ created.length) :
    join_fund_classify env created = created.getLast? ∧
    register_service_classify env created = created.head? ∧
    create_hedge_fund_classify env created = created.head? ∧
    extract_protocol_objects
      { success := true
        effects := some { created := created, mutated := mutated, gas_used := g }
        error := err } env =
      .ok (created.head?.getD default, created.getLast?.getD default) := by
  have hf1 : created.find? (isInvestorPosition env) = none :=
    List.find?_eq_none.mpr (fun y hy => by simp [h1 y hy])
  have hf2 : created.find? (isSharedObject env) = none :=
    List.find?_eq_none.mpr (fun y hy => by simp [h2 y hy])
  have hf3 : created.find? (isOwnedObject env) = none :=
    List.find?_eq_none.mpr (fun y hy => by simp [h3 y hy])
  exact ⟨by simp [join_fund_classify, hf1, Option.or],
         by simp [register_service_classify, hf2, Option.or],
         by simp [create_hedge_fund_classify, hf2, Option.or],
         by simp [extract_protocol_objects, hf2, hf3, Nat.not_lt.mpr hlen]⟩

/-- Claim C1, witness for the amended theorem at a concrete store and a
two-element created list matching none of the searches. -/
theorem c1_fallbacks_witness :
    join_fund_classify demoStore [addr4, addr5] = [addr4, addr5].getLast? ∧
    register_service_classify demoStore [addr4, addr5] = [addr4, addr5].head? ∧
    create_hedge_fund_classify demoStore [addr4, addr5] = [addr4, addr5].head? ∧
    extract_protocol_objects
      { success := true
        effects := some { created := [addr4, addr5], mutated := [], gas_used := 0 }
        error := none } demoStore =
      .ok ([addr4, addr5].head?.getD default, [addr4, addr5].getLast?.getD default) :=
  c1_fallbacks demoStore [addr4, addr5] [] 0 none
    (by decide) (by decide) (by decide) (by decide)

/-- Claim C2, counterexample: with a non-empty created list whose only
element does not satisfy the InvestorPosition hint, the join_fund
classification returns that element rather than NotFound, so it does
return an object that does not satisfy the hint. -/
theorem c2_counterexample :
    isInvestorPosition demoStore addr1 = false ∧
    join_fund_classify demoStore [addr1] = some addr1 := by decide

/-- Claim C2, amended: the classification sites return NotFound exactly
when the created list is empty; a hint that matches nothing does not by
itself produce NotFound, because the fallback then returns the first or
last created element. -/
theorem c2_notfound_iff_empty (env : ObjectStore) (created : List AccountAddress) :
    (join_fund_classify env created = none ↔ created = []) ∧
    (register_service_classify env created = none ↔ created = []) ∧
    (create_hedge_fund_classify env created = none ↔ created = []) ∧
    (purchase_access_classify created = none ↔ created = []) := by
  cases created with
  | nil =>
    refine ⟨?_, ?_, ?_, ?_⟩ <;>
      simp [join_fund_classify, register_service_classify, create_hedge_fund_classify,
        purchase_access_classify, Option.or]
  | cons a as =>
    refine ⟨?_, ?_, ?_, ?_⟩ <;>
      simp [join_fund_classify, register_service_classify, create_hedge_fund_classify,
        purchase_access_classify, Option.or_eq_none]

/-- Claim C3: classification by structural type name returns the first
created object whose type name matches, wherever it sits in the list. -/
theorem c3_first_type_match (env : ObjectStore) (pre post : List AccountAddress)
    (x : AccountAddress) (hx : isInvestorPosition env x = true)
    (hpre : ∀ y ∈ pre, isInvestorPosition env y = false) :
    join_fund_classify env (pre ++ x :: post) = some x := by
  have hfind := find?_first_match (isInvestorPosition env) pre post x hx hpre
  simp [join_fund_classify, hfind, Option.or]

/-- Claim C3, witness: against a created list holding one capability and
one InvestorPosition, the search returns the InvestorPosition id in both
list orders. -/
theorem c3_first_type_match_witness :
    join_fund_classify demoStore [addr1, addr3] = some addr3 ∧
    join_fund_classify demoStore [addr3, addr1] = some addr3 :=
  ⟨c3_first_type_match demoStore [addr1] [] addr3 (by decide) (by decide),
   c3_first_type_match demoStore [] [addr1] addr3 (by decide) (by decide)⟩

/-- Claim C4: in every block the demo submits, every result-style
argument references a strictly earlier command, and the only such
argument anywhere is NestedResult(0, 0) in the command at position 1. -/
theorem c4_blocks_are_dags (apex_pkg : AccountAddress) :
    (demo_blocks apex_pkg).all
      (fun cmds => blockDagOk cmds && blockNestedOnlyAtOne cmds) = true := by
  rfl

/-- Parsing an encoded string yields it back. -/
theorem decodeString_encode (s : String) : decodeString (.str s) = some s := rfl

/-- Parsing an encoded optional string yields it back. -/
theorem decodeOptString_encode (o : Option String) :
    decodeOptString (encodeOptString o) = some o := by
  cases o <;> rfl

/-- Parsing an encoded non-negative number yields it back. -/
theorem decodeNat_encode (n : Nat) : decodeNat (.num (Int.ofNat n)) = some n := by
  simp [decodeNat]

/-- Parsing the elementwise encoding of a list yields the list back,
given the elementwise roundtrip. -/
theorem decodeElems_roundtrip {α} {dec : Json → Option α} {enc : α → Json}
    (h : ∀ x, dec (enc x) = some x) :
    ∀ xs : List α, decodeElems dec (xs.map enc) = some xs := by
  intro xs
  induction xs with
  | nil => rfl
  | cons a as ih => simp [decodeElems, h a, ih]

/-- Parsing an encoded array field yields the list back. -/
theorem decodeList_roundtrip {α} {dec : Json → Option α} {enc : α → Json}
    (h : ∀ x, dec (enc x) = some x) (xs : List α) :
    decodeList dec (.arr (xs.map enc)) = some xs := by
  simp [decodeList, decodeElems_roundtrip h]

/-- Roundtrip of one rendered input. -/
theorem decodePtbInput_encode (x : PtbInput) :
    decodePtbInput (encodePtbInput x) = some x := by
  obtain ⟨i, t, o, tt, v⟩ := x
  cases o <;> cases tt <;> cases v <;>
    simp [encodePtbInput, decodePtbInput, Json.getField, List.lookup,
      decodeNat, decodeString, decodeOptString, encodeOptString]

/-- Roundtrip of one rendered command. -/
theorem decodePtbCommand_encode (x : PtbCommand) :
    decodePtbCommand (encodePtbCommand x) = some x := by
  obtain ⟨i, c, p, m, f, ta, a⟩ := x
  cases p <;> cases m <;> cases f <;>
    simp [encodePtbCommand, decodePtbCommand, Json.getField, List.lookup,
      decodeNat, decodeString, decodeOptString, encodeOptString,
      decodeList_roundtrip decodeString_encode]

/-- Roundtrip of one rendered created object. -/
theorem decodeCreatedObject_encode (x : CreatedObject) :
    decodeCreatedObject (encodeCreatedObject x) = some x := rfl

/-- Roundtrip of one rendered event. -/
theorem decodePtbEvent_encode (x : PtbEvent) :
    decodePtbEvent (encodePtbEvent x) = some x := rfl

/-- Roundtrip of rendered outputs. -/
theorem decodePtbOutputs_encode (x : PtbOutputs) :
    decodePtbOutputs (encodePtbOutputs x) = some x := by
  obtain ⟨s, g, c, m, e, err⟩ := x
  cases err <;>
    simp [encodePtbOutputs, decodePtbOutputs, Json.getField, List.lookup,
      decodeNat, decodeBool, decodeString, decodeOptString, encodeOptString,
      decodeList_roundtrip decodeString_encode,
      decodeList_roundtrip decodeCreatedObject_encode,
      decodeList_roundtrip decodePtbEvent_encode]

/-- Roundtrip of one whole trace entry. -/
theorem decodePtbTrace_encode (x : PtbTrace) :
    decodePtbTrace (encodePtbTrace x) = some x := by
  obtain ⟨d, st, se, i, c, o⟩ := x
  simp [encodePtbTrace, decodePtbTrace, Json.getField, List.lookup,
    decodeString, decodePtbOutputs_encode,
    decodeList_roundtrip decodePtbInput_encode,
    decodeList_roundtrip decodePtbCommand_encode]

/-- Claim C5: serializing a DemoTraces value to the persisted JSON
document (the document save_to_file writes) and parsing it back yields a
structurally equal value, field for field. -/
theorem c5_trace_file_roundtrip (t : DemoTraces) :
    parseDemoTraces (DemoTraces.to_json t) = some t := by
  obtain ⟨p, v, ts, tr⟩ := t
  simp [DemoTraces.to_json, parseDemoTraces, Json.getField, List.lookup,
    decodeString, decodeList_roundtrip decodePtbTrace_encode]

/-- Claim C6: at every block-construction site of the demo, every Shared
and every MutRef object input carries an explicit version, for all
object snapshots and payloads the site may receive; only Owned inputs
ever omit it. -/
theorem c6_shared_mutref_versioned
    (a1 a2 a3 a4 a5 a6 : AccountAddress) (o1 o2 o3 o4 o5 o6 : StoredObject)
    (ct : TypeTagR) (p1 p2 p3 p4 p5 p6 : List Nat) :
    (create_hedge_fund_inputs a1 a2 a3 a4 o1 o2 o3 o4 ct p1 p2 p3 p4 p5).all
      inputVersionOk = true ∧
    (join_fund_inputs a1 a2 a3 a4 a5 a6 o1 o2 o3 o4 o5 o6 ct p1).all
      inputVersionOk = true ∧
    (start_fund_trading_inputs a1 a2 o1 o2).all inputVersionOk = true ∧
    (execute_fund_trade_inputs a1 a2 o1 o2 p1 p2 p3 p4).all inputVersionOk = true ∧
    (add_trade_profit_inputs a1 a2 o1 o2 ct).all inputVersionOk = true ∧
    (settle_fund_inputs a1 a2 o1 o2).all inputVersionOk = true ∧
    (withdraw_investor_shares_inputs a1 a2 a3 o1 o2 o3 p1).all inputVersionOk = true ∧
    (withdraw_manager_fees_inputs a1 o1 p1).all inputVersionOk = true ∧
    (register_service_inputs a1 a2 o1 o2 ct p1 p2 p3).all inputVersionOk = true ∧
    (purchase_access_inputs a1 a2 a3 a4 o1 o2 o3 o4 ct p1 p2 p3 p4).all
      inputVersionOk = true ∧
    (use_access_inputs a1 a2 a3 o1 o2 o3 p1).all inputVersionOk = true ∧
    (create_authorization_inputs a1 o1 p1 p2 p3 p4 p5 p6).all inputVersionOk = true ∧
    (authorized_purchase_inputs a1 a2 a3 a4 a5 o1 o2 o3 o4 o5 ct p1 p2 p3 p4).all
      inputVersionOk = true ∧
    (create_registry_inputs a1 o1).all inputVersionOk = true ∧
    (list_service_inputs a1 a2 a3 o1 o2 o3 p1 p2).all inputVersionOk = true ∧
    (set_featured_inputs a1 o1 p1 p2).all inputVersionOk = true ∧
    (register_meter_inputs a1 o1 p1 p2 p3 p4).all inputVersionOk = true :=
  ⟨rfl, rfl, rfl, rfl, rfl, rfl, rfl, rfl, rfl, rfl, rfl, rfl, rfl, rfl, rfl, rfl, rfl⟩

/-- Claim C7: create_trace renders a failed execution result as a no-op:
outputs with success false, no created objects, no mutated objects, gas
zero, and the error taken from the structured error of the result. -/
theorem c7_failed_result_is_noop (demo step : String) (sender : AccountAddress)
    (inputs : List InputValue) (commands : List Command)
    (result : ExecutionResult) (env : ObjectStore)
    (h : result.success = false) :
    (create_trace demo step sender inputs commands result env).outputs =
      { success := false
        gas_used := 0
        created_objects := []
        mutated_objects := []
        events := []
        error := result.error.map VMError.debugRepr } := by
  simp [create_trace, h]

/-- Claim C7, witness at a concrete failed result. -/
theorem c7_failed_result_is_noop_witness :
    (create_trace "Demo 1: Basic Flow" "purchase_access" addr1 [] []
      failedResult demoStore).outputs =
      { success := false
        gas_used := 0
        created_objects := []
        mutated_objects := []
        events := []
        error := some "MoveAbort in apex_payments at code 4" } :=
  c7_failed_result_is_noop "Demo 1: Basic Flow" "purchase_access" addr1 [] []
    failedResult demoStore rfl

/-- Claim C8, counterexample: when the trace-file write fails, save_traces
returns the error and the save step of main returns the same error
instead of completing normally, so the flush failure is not suppressed. -/
theorem c8_counterexample :
    save_traces (some (DemoTraces.new "0s")) diskFullWrite = .error "disk full" ∧
    main_save_step (some (DemoTraces.new "0s")) diskFullWrite = .error "disk full" :=
  ⟨rfl, rfl⟩

/-- Claim C8, amended: a flush failure propagates: save_traces returns
the write error and main returns it too, aborting with a failure exit;
only a failure to acquire the trace lock is silently skipped. -/
theorem c8_flush_error_propagates (t : DemoTraces)
    (w : String → Json → Except String Unit) (e : String)
    (h : w "ptb_traces.json" t.to_json = .error e) :
    save_traces (some t) w = .error e ∧
    main_save_step (some t) w = .error e ∧
    save_traces none w = .ok () := by
  refine ⟨?_, ?_, rfl⟩ <;>
    simp [save_traces, main_save_step, DemoTraces.save_to_file, h]

/-- Claim C8, witness for the amended theorem at a concrete log and a
failing write. -/
theorem c8_flush_error_propagates_witness :
    save_traces (some (DemoTraces.new "1s")) diskFullWrite = .error "disk full" ∧
    main_save_step (some (DemoTraces.new "1s")) diskFullWrite = .error "disk full" ∧
    save_traces none diskFullWrite = .ok () :=
  c8_flush_error_propagates (DemoTraces.new "1s") diskFullWrite "disk full" rfl

/-- Claim C9: when record_trace acquires the lock (which in this
single-threaded process it always does, as the mutex can only be
poisoned by a panicking second thread), the log after the call is the
old log with exactly the new entry appended at the end: nothing is
lost, duplicated, or modified. -/
theorem c9_record_trace_appends (st : DemoTraces) (lockOk : Bool) (trace : PtbTrace)
    (h : lockOk = true) :
    (record_trace st lockOk trace).traces = st.traces ++ [trace] := by
  simp [record_trace, h, DemoTraces.add_trace]

/-- Claim C9, witness at a concrete log and entry. -/
theorem c9_record_trace_appends_witness :
    (record_trace (DemoTraces.new "0s") true sampleTrace).traces =
      (DemoTraces.new "0s").traces ++ [sampleTrace] :=
  c9_record_trace_appends (DemoTraces.new "0s") true sampleTrace rfl

/-- Claim C10: format_input sets the index to the given position and
keeps the optional fields mutually exclusive: Pure inputs get the
0x-prefixed lowercase hex of the bytes as value with no object id and no
type tag, object inputs get the hex object id with no value, with the
input type string determined by the access-mode variant. -/
theorem c10_format_input (index : Nat) :
    (∀ bytes, format_input (.Pure bytes) index =
      { index := index, input_type := "Pure", object_id := none, type_tag := none,
        value := some ("0x" ++ hexEncode bytes) }) ∧
    (∀ id bytes tt v, format_input (.Object (.ImmRef id bytes tt v)) index =
      { index := index, input_type := "ImmRef", object_id := some (addrHex id),
        type_tag := tt.map TypeTagR.render, value := none }) ∧
    (∀ id bytes tt v, format_input (.Object (.MutRef id bytes tt v)) index =
      { index := index, input_type := "MutRef", object_id := some (addrHex id),
        type_tag := tt.map TypeTagR.render, value := none }) ∧
    (∀ id bytes tt v, format_input (.Object (.Owned id bytes tt v)) index =
      { index := index, input_type := "Owned", object_id := some (addrHex id),
        type_tag := tt.map TypeTagR.render, value := none }) ∧
    (∀ id bytes tt v m, format_input (.Object (.Shared id bytes tt v m)) index =
      { index := index, input_type := if m then "SharedMut" else "SharedImm",
        object_id := some (addrHex id), type_tag := tt.map TypeTagR.render,
        value := none }) ∧
    (∀ id bytes tt v, format_input (.Object (.Receiving id bytes tt v)) index =
      { index := index, input_type := "Receiving", object_id := some (addrHex id),
        type_tag := tt.map TypeTagR.render, value := none }) :=
  ⟨fun _ => rfl, fun _ _ _ _ => rfl, fun _ _ _ _ => rfl, fun _ _ _ _ => rfl,
   fun _ _ _ _ _ => rfl, fun _ _ _ _ => rfl⟩
